import Mathlib

/-!
Verification development for the `database_size` scraper of the
greenplum_exporter collector (`collector/database_size.go`).

The scraper is embedded shallowly: every database interaction is an oracle
recorded in an `Env` value (the outcome the driver would deliver), queries and
row scans return `Except String` values, emitted Prometheus metrics become an
ordered `List Metric`, and connection/query activity is logged into an ordered
trace of events so that resource-lifecycle properties (open/close balance,
which queries were attempted) are visible in the model.
-/

namespace GreenplumExporter

/-! ## Substring machinery

Models SQL `position(needle in hay)` (1-based index of the first occurrence,
0 when absent) and Go `strings.Replace(s, old, new, 1)` (replace the first
occurrence only; unchanged when absent). -/

/-- `leadsWith n h` is true when the list `n` occurs at the very front of `h`. -/
def leadsWith : List Char → List Char → Bool
  | [], _ => true
  | _ :: _, [] => false
  | a :: as, b :: bs => a == b && leadsWith as bs

/-- Index of the first occurrence of `needle` inside `h`, `none` when absent. -/
def occPos (needle : List Char) : List Char → Option Nat
  | [] => if leadsWith needle [] then some 0 else none
  | c :: rest =>
    if leadsWith needle (c :: rest) then some 0
    else (occPos needle rest).map (· + 1)

/-- SQL `position(needle in s)`: 1-based index of the first occurrence, 0 when
`needle` does not occur in `s`. -/
def sqlPosition (needle s : String) : Nat :=
  match occPos needle.data s.data with
  | some i => i + 1
  | none => 0

/-- Semantic substring containment: `s` decomposes around an occurrence of
`needle`. -/
def sqlContains (needle s : String) : Prop :=
  ∃ pre post, s.data = pre ++ needle.data ++ post

/-- Go `strings.Replace(s, pat, rep, 1)` for a nonempty pattern: replace the
first occurrence of `pat` by `rep`; return `s` unchanged when `pat` is absent. -/
def replaceFirst (s pat rep : String) : String :=
  match occPos pat.data s.data with
  | none => s
  | some i => ⟨s.data.take i ++ rep.data ++ s.data.drop (i + pat.length)⟩

/-! ## SQL-level severity tier

The `CASE` expression inside `bloatTableSql` computes `bloat_state` from the
diagnostic message column `bdidiag`:
  `case when position('moderate' in bdidiag)>0 then 1
        when position('significant' in bdidiag)>0 then 2
        else 0 end`.
A SQL NULL message makes every condition non-true, so the `else` branch
yields 0; that is the `none` case here. -/

/-- Severity tier computed by the `CASE` expression of `bloatTableSql`. -/
def bloatState : Option String → ℚ
  | none => 0
  | some diag =>
    if 0 < sqlPosition "moderate" diag then 1
    else if 0 < sqlPosition "significant" diag then 2
    else 0

/-! ## Data model of the scraper -/

/-- One metric pushed onto the Prometheus channel `ch`. The constructors
correspond to `databaseSizeDesc`, `tablesCountDesc`, `bloatTableDesc`,
`hitCacheRateDesc` and `txCommitRateDesc`. -/
inductive Metric where
  | dbSize (dbname : String) (value : ℚ)
  | tableCount (dbname : String) (value : ℚ)
  | bloat (dbname schema table relpages exppages : String) (value : ℚ)
  | hitCache (value : ℚ)
  | txCommit (value : ℚ)
deriving DecidableEq

/-- Connection and query events, traced in execution order so that resource
lifecycle and which stages were attempted are observable in the model. -/
inductive Ev where
  | primaryQ
  | openAttempt (dsn : String)
  | opened (dsn : String)
  | closed (dsn : String)
  | tableCountQ (dsn : String)
  | bloatQ (dsn : String)
  | hitCacheQ
  | txCommitQ
deriving DecidableEq

/-- One scanned row of `bloatTableSql`: five string columns and the
`bloat_state` value the query computed. -/
structure BloatRow where
  dbname : String
  schema : String
  table : String
  relpages : String
  exppages : String
  bloatstate : ℚ
deriving DecidableEq

/-- Oracle environment for one scrape cycle: the outcome every database
interaction would deliver. A query outcome is `.error e` when the query fails
to execute, or `.ok rows` where each row is its scan outcome (`.error` for a
row that fails to `Scan`). Per-database oracles are keyed by the connection
string used to open the connection. `baseDSN` is `GPDB_DATA_SOURCE_URL`. -/
structure Env where
  baseDSN : String
  primaryQuery : Except String (List (Except String (String × ℚ)))
  openResult : String → Except String Unit
  tableCountQuery : String → Except String (List (Except String ℚ))
  bloatQuery : String → Except String (List (Except String BloatRow))
  hitCacheQuery : Except String (List (Except String ℚ))
  txCommitQuery : Except String (List (Except String ℚ))

/-- Modelled from the spec: the error-aggregation utility `combineErr` is used
by `Scrape` but defined outside the provided source file. Per the spec's
error-aggregation contract: no failures yield no error, exactly one failure
yields that error directly, several yield a single error preserving every
description in order. -/
def combineErr (errs : List String) : Option String :=
  match errs with
  | [] => none
  | [e] => some e
  | es => some (String.intercalate "; " es)

/-! ## Embedding of the scraper functions -/

/-- Connection string derived for a target database:
`strings.Replace(os.Getenv("GPDB_DATA_SOURCE_URL"), "/postgres", "/"+dbname, 1)`. -/
def derivedDSN (env : Env) (dbname : String) : String :=
  replaceFirst env.baseDSN "/postgres" ("/" ++ dbname)

/-- The row loop of `queryTablesCount`: each row is scanned into `count`,
overwriting the previous value; the first row that fails to scan aborts the
loop with its error. Zero rows leave the zero value in place. -/
def scanCounts : ℚ → List (Except String ℚ) → Except String ℚ
  | acc, [] => .ok acc
  | _, .ok v :: rest => scanCounts v rest
  | _, .error e :: _ => .error e

/-- The row loop of `queryBloatTables`: a row that scans emits one bloat
metric; a row that fails to scan is appended to the error list and skipped.
Returns (metrics in emission order, scan errors in order). -/
def bloatLoop : List (Except String BloatRow) → List Metric × List String
  | [] => ([], [])
  | .ok b :: rest =>
    let p := bloatLoop rest
    (Metric.bloat b.dbname b.schema b.table b.relpages b.exppages b.bloatstate :: p.1, p.2)
  | .error e :: rest =>
    let p := bloatLoop rest
    (p.1, e :: p.2)

/-- Result of one `queryTablesCount` invocation: metrics emitted while it ran,
its event trace, the returned `count`, and the returned error (`none` = nil).
On an error return the Go `count` value is never consumed by the caller; the
model returns the scanned value where the source does and 0 elsewhere. -/
structure TCResult where
  metrics : List Metric
  trace : List Ev
  count : ℚ
  err : Option String
deriving DecidableEq

/-- Embedding of `queryTablesCount`: derive the connection string, open the
connection (closed by `defer` on every later path), query the table count,
scan it, then run `queryBloatTables` on the same connection; the bloat stage's
aggregated error, if any, becomes this function's error. -/
def queryTablesCount (env : Env) (dbname : String) : TCResult :=
  let dsn := derivedDSN env dbname
  match env.openResult dsn with
  | .error e => ⟨[], [.openAttempt dsn], 0, some e⟩
  | .ok _ =>
    match env.tableCountQuery dsn with
    | .error e => ⟨[], [.openAttempt dsn, .opened dsn, .tableCountQ dsn, .closed dsn], 0, some e⟩
    | .ok rows =>
      match scanCounts 0 rows with
      | .error e =>
        ⟨[], [.openAttempt dsn, .opened dsn, .tableCountQ dsn, .closed dsn], 0, some e⟩
      | .ok c =>
        match env.bloatQuery dsn with
        | .error e =>
          ⟨[], [.openAttempt dsn, .opened dsn, .tableCountQ dsn, .bloatQ dsn, .closed dsn],
            c, some e⟩
        | .ok brows =>
          let b := bloatLoop brows
          ⟨b.1, [.openAttempt dsn, .opened dsn, .tableCountQ dsn, .bloatQ dsn, .closed dsn],
            c, combineErr b.2⟩

/-- Result of a ratio helper (`queryHitCacheRate` / `queryTxCommitRate`). -/
structure RatioOut where
  metrics : List Metric
  trace : List Ev
  err : Option String
deriving DecidableEq

/-- Embedding of `queryHitCacheRate`: only a query-execution failure is
returned. Inside the row loop the source assigns the scan error to `err` but
never checks it, emits the metric with whatever is in `rate` (the zero value
when the scan failed) and breaks after the first row; the function then
returns nil. -/
def queryHitCacheRate (q : Except String (List (Except String ℚ))) : RatioOut :=
  match q with
  | .error e => ⟨[], [.hitCacheQ], some e⟩
  | .ok [] => ⟨[], [.hitCacheQ], none⟩
  | .ok (.ok v :: _) => ⟨[.hitCache v], [.hitCacheQ], none⟩
  | .ok (.error _ :: _) => ⟨[.hitCache 0], [.hitCacheQ], none⟩

/-- Embedding of `queryTxCommitRate`; same shape as `queryHitCacheRate`,
including the unchecked scan error inside the loop. -/
def queryTxCommitRate (q : Except String (List (Except String ℚ))) : RatioOut :=
  match q with
  | .error e => ⟨[], [.txCommitQ], some e⟩
  | .ok [] => ⟨[], [.txCommitQ], none⟩
  | .ok (.ok v :: _) => ⟨[.txCommit v], [.txCommitQ], none⟩
  | .ok (.error _ :: _) => ⟨[.txCommit 0], [.txCommitQ], none⟩

/-- Output of the primary-query row loop of `Scrape`. -/
structure PrimOut where
  metrics : List Metric
  names : List String
  errs : List String
deriving DecidableEq

/-- The primary row loop of `Scrape`: a row that scans emits one size metric
and pushes its name onto `names`; a row that fails to scan is appended to
`errs` and skipped. -/
def processRows : List (Except String (String × ℚ)) → PrimOut
  | [] => ⟨[], [], []⟩
  | .ok p :: rest =>
    let r := processRows rest
    ⟨Metric.dbSize p.1 p.2 :: r.metrics, p.1 :: r.names, r.errs⟩
  | .error e :: rest =>
    let r := processRows rest
    ⟨r.metrics, r.names, e :: r.errs⟩

/-- Output of the per-database loop of `Scrape`. -/
structure StageOut where
  metrics : List Metric
  trace : List Ev
  errs : List String
deriving DecidableEq

/-- The per-database loop of `Scrape`: for each discovered name run
`queryTablesCount`; on error append it to `errs` and continue with the next
name; on success emit the table-count metric after the metrics the call itself
emitted. -/
def perDbStage (env : Env) : List String → StageOut
  | [] => ⟨[], [], []⟩
  | n :: rest =>
    let r := queryTablesCount env n
    let s := perDbStage env rest
    match r.err with
    | some e => ⟨r.metrics ++ s.metrics, r.trace ++ s.trace, e :: s.errs⟩
    | none => ⟨r.metrics ++ Metric.tableCount n r.count :: s.metrics, r.trace ++ s.trace, s.errs⟩

/-- Result of one `Scrape` cycle: all metrics pushed to `ch` in emission
order, the event trace, the accumulated `errs` slice, and the returned error. -/
structure ScrapeResult where
  metrics : List Metric
  trace : List Ev
  errs : List String
  result : Option String
deriving DecidableEq

/-- Embedding of `Scrape`: run the primary enumeration query (returning its
error directly when it fails to execute), loop over its rows, loop over the
discovered names, run the two ratio helpers, and return `combineErr` of every
accumulated failure. -/
def Scrape (env : Env) : ScrapeResult :=
  match env.primaryQuery with
  | .error e => ⟨[], [.primaryQ], [], some e⟩
  | .ok rows =>
    let p := processRows rows
    let d := perDbStage env p.names
    let h := queryHitCacheRate env.hitCacheQuery
    let t := queryTxCommitRate env.txCommitQuery
    let errs := p.errs ++ d.errs ++ h.err.toList ++ t.err.toList
    ⟨p.metrics ++ d.metrics ++ h.metrics ++ t.metrics,
      Ev.primaryQ :: (d.trace ++ h.trace ++ t.trace), errs, combineErr errs⟩

/-- Number of occurrences of an event in a trace. -/
def countEv (a : Ev) : List Ev → Nat
  | [] => 0
  | b :: l => (if b = a then 1 else 0) + countEv a l

/-! ## Concrete environments used by witnesses and counterexamples -/

/-- Cycle in which the primary query enumerates two databases and the
connection for the first one fails to open. -/
def envC1 : Env where
  baseDSN := "db/postgres"
  primaryQuery := .ok [.ok ("a", 1), .ok ("b", 2)]
  openResult := fun d => if d = "db/a" then .error "open failed" else .ok ()
  tableCountQuery := fun _ => .ok [.ok 3]
  bloatQuery := fun _ => .ok []
  hitCacheQuery := .ok [.ok 1]
  txCommitQuery := .ok [.ok 1]

/-- Cycle in which the primary enumeration query itself fails. -/
def envC2 : Env where
  baseDSN := "db/postgres"
  primaryQuery := .error "deadline exceeded"
  openResult := fun _ => .ok ()
  tableCountQuery := fun _ => .ok [.ok 3]
  bloatQuery := fun _ => .ok []
  hitCacheQuery := .ok [.ok 1]
  txCommitQuery := .ok [.ok 1]

/-- Cycle in which every per-database interaction succeeds. -/
def envC3 : Env where
  baseDSN := "db/postgres"
  primaryQuery := .ok [.ok ("app", 5)]
  openResult := fun _ => .ok ()
  tableCountQuery := fun _ => .ok [.ok 3]
  bloatQuery := fun _ => .ok []
  hitCacheQuery := .ok [.ok 1]
  txCommitQuery := .ok [.ok 1]

/-- Primary result set with two good rows and one row that fails to scan. -/
def rowsC5 : List (Except String (String × ℚ)) :=
  [.ok ("app", 100), .error "bad row", .ok ("sales", 42)]

/-- Cycle whose primary query returns `rowsC5`. -/
def envC5 : Env where
  baseDSN := "db/postgres"
  primaryQuery := .ok rowsC5
  openResult := fun _ => .ok ()
  tableCountQuery := fun _ => .ok [.ok 3]
  bloatQuery := fun _ => .ok []
  hitCacheQuery := .ok [.ok 1]
  txCommitQuery := .ok [.ok 1]

/-- Cycle in which the object-count row fails to scan while the bloat query
would succeed and return one row. -/
def envC6 : Env where
  baseDSN := "db/postgres"
  primaryQuery := .ok [.ok ("app", 5)]
  openResult := fun _ => .ok ()
  tableCountQuery := fun _ => .ok [.error "count scan failed"]
  bloatQuery := fun _ => .ok [.ok ⟨"app", "s", "t", "10", "2", 1⟩]
  hitCacheQuery := .ok []
  txCommitQuery := .ok []

/-- Cycle in which the object-count query scans the value 10 but the bloat
query fails to execute. -/
def envC7 : Env where
  baseDSN := "db/postgres"
  primaryQuery := .ok [.ok ("app", 5)]
  openResult := fun _ => .ok ()
  tableCountQuery := fun _ => .ok [.ok 10]
  bloatQuery := fun _ => .error "bloat query failed"
  hitCacheQuery := .ok []
  txCommitQuery := .ok []

/-- Cycle in which every per-database interaction succeeds, bloat diagnostics
included. -/
def envC7w : Env where
  baseDSN := "db/postgres"
  primaryQuery := .ok [.ok ("app", 5)]
  openResult := fun _ => .ok ()
  tableCountQuery := fun _ => .ok [.ok 7]
  bloatQuery := fun _ => .ok [.ok ⟨"app", "s", "t", "10", "2", 2⟩]
  hitCacheQuery := .ok []
  txCommitQuery := .ok []

/-- Cycle in which the cache-hit query fails to execute but the commit-rate
query succeeds. -/
def envC8 : Env where
  baseDSN := "db/postgres"
  primaryQuery := .ok []
  openResult := fun _ => .ok ()
  tableCountQuery := fun _ => .ok []
  bloatQuery := fun _ => .ok []
  hitCacheQuery := .error "hit query failed"
  txCommitQuery := .ok [.ok 99]

/-- Cycle in which the cache-hit row fails to scan while the commit-rate row
scans fine. -/
def envC9 : Env where
  baseDSN := "db/postgres"
  primaryQuery := .ok []
  openResult := fun _ => .ok ()
  tableCountQuery := fun _ => .ok []
  bloatQuery := fun _ => .ok []
  hitCacheQuery := .ok [.error "hit rate scan failed"]
  txCommitQuery := .ok [.ok 99]

/-- Cycle whose base connection string does not contain "/postgres". -/
def envC10a : Env where
  baseDSN := "host=gp port=5432 user=x"
  primaryQuery := .ok []
  openResult := fun _ => .ok ()
  tableCountQuery := fun _ => .ok []
  bloatQuery := fun _ => .ok []
  hitCacheQuery := .ok []
  txCommitQuery := .ok []

/-- Cycle whose base connection string contains "/postgres" at index 19. -/
def envC10b : Env where
  baseDSN := "postgres://u@h:5432/postgres?sslmode=disable"
  primaryQuery := .ok []
  openResult := fun _ => .ok ()
  tableCountQuery := fun _ => .ok []
  bloatQuery := fun _ => .ok []
  hitCacheQuery := .ok []
  txCommitQuery := .ok []

/-- A diagnostic message containing both severity keywords. -/
def bothDiag : String := "moderate to significant bloat suspected"

/-! ## Lemmas about the substring machinery -/

theorem leadsWith_iff (n : List Char) : ∀ h, leadsWith n h = true ↔ ∃ post, h = n ++ post := by
  induction n with
  | nil => intro h; simp [leadsWith]
  | cons a as ih =>
    intro h
    cases h with
    | nil =>
      simp [leadsWith]
    | cons b bs =>
      simp only [leadsWith, Bool.and_eq_true, beq_iff_eq, List.cons_append, List.cons.injEq]
      rw [ih bs]
      constructor
      · rintro ⟨h1, post, h2⟩; exact ⟨post, h1.symm, h2⟩
      · rintro ⟨post, h1, h2⟩; exact ⟨h1.symm, post, h2⟩

theorem occPos_none_iff (n : List Char) :
    ∀ h, occPos n h = none ↔ ∀ pre post, h ≠ pre ++ n ++ post := by
  intro h
  induction h with
  | nil =>
    by_cases hl : leadsWith n [] = true
    · obtain ⟨post, hp⟩ := (leadsWith_iff n []).1 hl
      simp only [occPos, if_pos hl]
      constructor
      · intro hc; cases hc
      · intro hall; exact absurd hp.symm (by simpa using hall [] post)
    · simp only [occPos, if_neg hl]
      constructor
      · intro _ pre post hc
        rcases List.append_eq_nil.1 hc.symm with ⟨h1, h2⟩
        rcases List.append_eq_nil.1 h1 with ⟨_, h3⟩
        exact hl ((leadsWith_iff n []).2 ⟨[], by simp [h3]⟩)
      · intro _; trivial
  | cons c rest ih =>
    by_cases hl : leadsWith n (c :: rest) = true
    · obtain ⟨post, hp⟩ := (leadsWith_iff n (c :: rest)).1 hl
      simp only [occPos, if_pos hl]
      constructor
      · intro hc; cases hc
      · intro hall; exact absurd hp (by simpa using hall [] post)
    · simp only [occPos, if_neg hl, Option.map_eq_none']
      rw [ih]
      constructor
      · intro hall pre post hc
        cases pre with
        | nil =>
          exact hl ((leadsWith_iff n (c :: rest)).2 ⟨post, by simpa using hc⟩)
        | cons p ps =>
          simp only [List.cons_append, List.cons.injEq] at hc
          exact hall ps post hc.2
      · intro hall pre post hc
        exact hall (c :: pre) post (by simp [hc])

theorem occPos_some (n : List Char) :
    ∀ h i, occPos n h = some i →
      (∃ post, h.drop i = n ++ post) ∧ ∀ j, j < i → leadsWith n (h.drop j) = false := by
  intro h
  induction h with
  | nil =>
    intro i hi
    by_cases hl : leadsWith n [] = true
    · simp only [occPos, if_pos hl, Option.some.injEq] at hi
      subst hi
      exact ⟨(leadsWith_iff n []).1 hl, fun j hj => absurd hj (Nat.not_lt_zero j)⟩
    · simp [occPos, if_neg hl] at hi
  | cons c rest ih =>
    intro i hi
    by_cases hl : leadsWith n (c :: rest) = true
    · simp only [occPos, if_pos hl, Option.some.injEq] at hi
      subst hi
      exact ⟨(leadsWith_iff n (c :: rest)).1 hl, fun j hj => absurd hj (Nat.not_lt_zero j)⟩
    · simp only [occPos, if_neg hl, Option.map_eq_some'] at hi
      obtain ⟨i0, hi0, hsum⟩ := hi
      obtain ⟨⟨post, hpost⟩, hmin⟩ := ih i0 hi0
      subst hsum
      refine ⟨⟨post, by simpa using hpost⟩, ?_⟩
      intro j hj
      cases j with
      | zero => simpa using Bool.eq_false_iff.2 hl
      | succ j0 =>
        have : j0 < i0 := Nat.lt_of_succ_lt_succ hj
        simpa using hmin j0 this

theorem sqlPosition_pos_iff (needle s : String) :
    0 < sqlPosition needle s ↔ sqlContains needle s := by
  unfold sqlPosition sqlContains
  rcases ho : occPos needle.data s.data with _ | i
  · simp only [Nat.lt_irrefl, false_iff]
    rintro ⟨pre, post, hd⟩
    exact (occPos_none_iff needle.data s.data).1 ho pre post hd
  · simp only [Nat.succ_pos, true_iff]
    obtain ⟨⟨post, hpost⟩, _⟩ := occPos_some needle.data s.data i ho
    refine ⟨s.data.take i, post, ?_⟩
    conv_lhs => rw [← List.take_append_drop i s.data]
    rw [hpost, List.append_assoc]

/-! ## Helper lemmas about the loops -/

theorem processRows_metrics (rows : List (Except String (String × ℚ))) :
    (processRows rows).metrics =
      rows.filterMap (fun r => match r with
        | .ok p => some (Metric.dbSize p.1 p.2)
        | .error _ => none) := by
  induction rows with
  | nil => rfl
  | cons r rest ih => cases r <;> simp [processRows, List.filterMap_cons, ih]

theorem processRows_names (rows : List (Except String (String × ℚ))) :
    (processRows rows).names =
      rows.filterMap (fun r => match r with
        | .ok p => some p.1
        | .error _ => none) := by
  induction rows with
  | nil => rfl
  | cons r rest ih => cases r <;> simp [processRows, List.filterMap_cons, ih]

theorem processRows_errs (rows : List (Except String (String × ℚ))) :
    (processRows rows).errs =
      rows.filterMap (fun r => match r with
        | .ok _ => none
        | .error e => some e) := by
  induction rows with
  | nil => rfl
  | cons r rest ih => cases r <;> simp [processRows, List.filterMap_cons, ih]

theorem perDbStage_errs (env : Env) :
    ∀ ns, (perDbStage env ns).errs = ns.filterMap (fun n => (queryTablesCount env n).err) := by
  intro ns
  induction ns with
  | nil => rfl
  | cons n rest ih =>
    rcases h : (queryTablesCount env n).err with _ | e <;>
      simp [perDbStage, h, List.filterMap_cons, ih]

theorem perDbStage_good_mem (env : Env) :
    ∀ ns n, n ∈ ns → (queryTablesCount env n).err = none →
      Metric.tableCount n (queryTablesCount env n).count ∈ (perDbStage env ns).metrics := by
  intro ns
  induction ns with
  | nil => intro n hn; cases hn
  | cons m rest ih =>
    intro n hn herr
    rcases List.mem_cons.1 hn with rfl | hrest
    · simp [perDbStage, herr]
    · rcases h : (queryTablesCount env m).err with _ | e <;>
        · simp only [perDbStage, h]
          exact List.mem_append_right _ (by simp [ih n hrest herr])

theorem queryHitCacheRate_ok_err (l : List (Except String ℚ)) :
    (queryHitCacheRate (.ok l)).err = none := by
  rcases l with _ | ⟨r, rest⟩
  · rfl
  · cases r <;> rfl

theorem queryTxCommitRate_ok_err (l : List (Except String ℚ)) :
    (queryTxCommitRate (.ok l)).err = none := by
  rcases l with _ | ⟨r, rest⟩
  · rfl
  · cases r <;> rfl

theorem bloatLoop_no_count_metric :
    ∀ rows (n : String) (c : ℚ), Metric.tableCount n c ∉ (bloatLoop rows).1 := by
  intro rows
  induction rows with
  | nil => intro n c h; cases h
  | cons r rest ih =>
    intro n c h
    cases r with
    | ok b =>
      rcases List.mem_cons.1 h with heq | hm
      · cases heq
      · exact ih n c hm
    | error e => exact ih n c h

theorem queryTablesCount_no_count_metric (env : Env) (dbname n : String) (c : ℚ) :
    Metric.tableCount n c ∉ (queryTablesCount env dbname).metrics := by
  unfold queryTablesCount
  rcases h1 : env.openResult (derivedDSN env dbname) with e | u
  · simp [h1]
  · rcases h2 : env.tableCountQuery (derivedDSN env dbname) with e | rows
    · simp [h1, h2]
    · rcases h3 : scanCounts 0 rows with e | cval
      · simp [h1, h2, h3]
      · rcases h4 : env.bloatQuery (derivedDSN env dbname) with e | brows
        · simp [h1, h2, h3, h4]
        · simpa [h1, h2, h3, h4] using bloatLoop_no_count_metric brows n c

theorem queryHitCacheRate_trace (q : Except String (List (Except String ℚ))) :
    (queryHitCacheRate q).trace = [Ev.hitCacheQ] := by
  rcases q with e | (_ | ⟨r, rest⟩)
  · rfl
  · rfl
  · cases r <;> rfl

theorem queryTxCommitRate_trace (q : Except String (List (Except String ℚ))) :
    (queryTxCommitRate q).trace = [Ev.txCommitQ] := by
  rcases q with e | (_ | ⟨r, rest⟩)
  · rfl
  · rfl
  · cases r <;> rfl

/-! ## Claims -/

/-- C2: if the primary enumeration query fails to execute, `Scrape` returns
that single error, emits zero measurements, and attempts nothing further:
its whole trace is the one primary-query attempt, so no per-database
connection and no cluster-aggregate query is ever attempted. -/
theorem c2_primary_failure_aborts (env : Env) (e : String)
    (h : env.primaryQuery = .error e) :
    Scrape env = ⟨[], [Ev.primaryQ], [], some e⟩ := by
  simp [Scrape, h]

/-- C2 witness: the theorem applied to the concrete cycle whose primary query
fails with "deadline exceeded". -/
theorem c2_primary_failure_aborts_witness :
    Scrape envC2 = ⟨[], [Ev.primaryQ], [], some "deadline exceeded"⟩ :=
  c2_primary_failure_aborts envC2 "deadline exceeded" rfl

/-- C4 counterexample: the claim says a message containing "significant"
yields tier 2 even if it also contains "moderate", but the `CASE` expression
checks "moderate" first, so `bothDiag` (which contains both keywords) is
classified tier 1, not 2. -/
theorem c4_counterexample :
    sqlContains "significant" bothDiag ∧ sqlContains "moderate" bothDiag ∧
    bloatState (some bothDiag) = 1 ∧ bloatState (some bothDiag) ≠ 2 :=
  ⟨⟨"moderate to ".data, " bloat suspected".data, by decide⟩,
   ⟨[], " to significant bloat suspected".data, by decide⟩,
   by decide, by decide⟩

/-- C4 (amended): the severity tier is derived by substring containment in
the fixed priority order "moderate" before "significant": a message containing
"moderate" yields tier 1 (even if it also contains "significant"), a message
containing "significant" but not "moderate" yields tier 2, and a message
containing neither — or a missing message — yields tier 0. -/
theorem c4_bloat_state_amended (s : String) :
    bloatState none = 0 ∧
    (sqlContains "moderate" s → bloatState (some s) = 1) ∧
    (¬ sqlContains "moderate" s → sqlContains "significant" s → bloatState (some s) = 2) ∧
    (¬ sqlContains "moderate" s → ¬ sqlContains "significant" s → bloatState (some s) = 0) := by
  refine ⟨rfl, ?_, ?_, ?_⟩
  · intro h
    simp [bloatState, (sqlPosition_pos_iff "moderate" s).2 h]
  · intro hm hs
    have h1 : ¬ 0 < sqlPosition "moderate" s := fun hp => hm ((sqlPosition_pos_iff _ _).1 hp)
    simp [bloatState, h1, (sqlPosition_pos_iff "significant" s).2 hs]
  · intro hm hs
    have h1 : ¬ 0 < sqlPosition "moderate" s := fun hp => hm ((sqlPosition_pos_iff _ _).1 hp)
    have h2 : ¬ 0 < sqlPosition "significant" s := fun hp => hs ((sqlPosition_pos_iff _ _).1 hp)
    simp [bloatState, h1, h2]

/-- C4 witness: the amended theorem applied to the three standard diagnostic
messages. -/
theorem c4_bloat_state_amended_witness :
    bloatState (some "moderate amount of bloat suspected") = 1 ∧
    bloatState (some "significant amount of bloat suspected") = 2 ∧
    bloatState (some "no issue") = 0 :=
  ⟨(c4_bloat_state_amended "moderate amount of bloat suspected").2.1
      ⟨[], " amount of bloat suspected".data, by decide⟩,
   (c4_bloat_state_amended "significant amount of bloat suspected").2.2.1
      (fun h => absurd ((sqlPosition_pos_iff _ _).2 h) (by decide))
      ⟨[], " amount of bloat suspected".data, by decide⟩,
   (c4_bloat_state_amended "no issue").2.2.2
      (fun h => absurd ((sqlPosition_pos_iff _ _).2 h) (by decide))
      (fun h => absurd ((sqlPosition_pos_iff _ _).2 h) (by decide))⟩

/-- C9: in the cycle `envC9` the cache-hit row fails to scan, yet `Scrape`
accumulates no failure at all (`errs` is empty, the returned error is nil)
and even emits a cache-hit measurement carrying the zero value the scan left
behind — the scan failure is silently dropped, contradicting the claim that
every row-level failure reaches the aggregated error. -/
theorem c9_ratio_scan_error_dropped :
    (Scrape envC9).errs = [] ∧ (Scrape envC9).result = none ∧
    Metric.hitCache 0 ∈ (Scrape envC9).metrics ∧
    Metric.txCommit 99 ∈ (Scrape envC9).metrics := by
  refine ⟨rfl, rfl, by decide, by decide⟩

/-- C10: the per-database connection string is derived from the base string
by replacing exactly the first occurrence of "/postgres" with "/" followed by
the target name; when the base string does not contain "/postgres" it is
returned unchanged for every target. -/
theorem c10_derived_dsn (env : Env) (dbname : String) :
    (occPos "/postgres".data env.baseDSN.data = none → derivedDSN env dbname = env.baseDSN) ∧
    (∀ i, occPos "/postgres".data env.baseDSN.data = some i →
      (derivedDSN env dbname).data =
        env.baseDSN.data.take i ++ ("/" ++ dbname).data ++
          env.baseDSN.data.drop (i + "/postgres".length) ∧
      ∀ j, j < i → ¬ ∃ post, env.baseDSN.data.drop j = "/postgres".data ++ post) := by
  constructor
  · intro h
    simp [derivedDSN, replaceFirst, h]
  · intro i h
    constructor
    · simp [derivedDSN, replaceFirst, h]
    · rintro j hj ⟨post, hp⟩
      have hfalse := (occPos_some "/postgres".data env.baseDSN.data i h).2 j hj
      have htrue := (leadsWith_iff "/postgres".data ("/postgres".data ++ post)).2 ⟨post, rfl⟩
      rw [hp, htrue] at hfalse
      cases hfalse

/-- C10 witness: the theorem applied to a base string without "/postgres"
(unchanged) and to one whose first occurrence sits at index 19 (replaced
there). -/
theorem c10_derived_dsn_witness :
    derivedDSN envC10a "app" = envC10a.baseDSN ∧
    (derivedDSN envC10b "app").data =
      envC10b.baseDSN.data.take 19 ++ ("/" ++ "app").data ++
        envC10b.baseDSN.data.drop (19 + "/postgres".length) :=
  ⟨(c10_derived_dsn envC10a "app").1 (by decide),
   ((c10_derived_dsn envC10b "app").2 19 (by decide)).1⟩

/-- C3: in every `queryTablesCount` invocation the per-database connection is
closed exactly once before the stage returns, on every exit path: when the
open fails there is nothing to close (no close event at all), and when the
open succeeds the trace records exactly one open and exactly one close of
that connection, with some query activity in between and the close as the
very last action before returning. -/
theorem c3_connection_closed_once (env : Env) (dbname : String) :
    (∀ e, env.openResult (derivedDSN env dbname) = .error e →
      countEv (Ev.opened (derivedDSN env dbname)) (queryTablesCount env dbname).trace = 0 ∧
      countEv (Ev.closed (derivedDSN env dbname)) (queryTablesCount env dbname).trace = 0) ∧
    (env.openResult (derivedDSN env dbname) = .ok () →
      countEv (Ev.opened (derivedDSN env dbname)) (queryTablesCount env dbname).trace = 1 ∧
      countEv (Ev.closed (derivedDSN env dbname)) (queryTablesCount env dbname).trace = 1 ∧
      ∃ mid, (queryTablesCount env dbname).trace =
          Ev.openAttempt (derivedDSN env dbname) :: Ev.opened (derivedDSN env dbname) ::
            (mid ++ [Ev.closed (derivedDSN env dbname)]) ∧
          Ev.opened (derivedDSN env dbname) ∉ mid ∧
          Ev.closed (derivedDSN env dbname) ∉ mid) := by
  constructor
  · intro e h
    simp [queryTablesCount, h, countEv]
  · intro h
    unfold queryTablesCount
    rcases h2 : env.tableCountQuery (derivedDSN env dbname) with e | rows
    · refine ⟨?_, ?_, [Ev.tableCountQ (derivedDSN env dbname)], ?_, ?_, ?_⟩ <;>
        simp [h, h2, countEv]
    · rcases h3 : scanCounts 0 rows with e | cval
      · refine ⟨?_, ?_, [Ev.tableCountQ (derivedDSN env dbname)], ?_, ?_, ?_⟩ <;>
          simp [h, h2, h3, countEv]
      · rcases h4 : env.bloatQuery (derivedDSN env dbname) with e | brows
        · refine ⟨?_, ?_,
            [Ev.tableCountQ (derivedDSN env dbname), Ev.bloatQ (derivedDSN env dbname)],
            ?_, ?_, ?_⟩ <;> simp [h, h2, h3, h4, countEv]
        · refine ⟨?_, ?_,
            [Ev.tableCountQ (derivedDSN env dbname), Ev.bloatQ (derivedDSN env dbname)],
            ?_, ?_, ?_⟩ <;> simp [h, h2, h3, h4, countEv]

/-- C3 witness: the theorem applied to the all-successful concrete cycle:
the connection for "app" is opened once and closed once. -/
theorem c3_connection_closed_once_witness :
    countEv (Ev.opened (derivedDSN envC3 "app")) (queryTablesCount envC3 "app").trace = 1 ∧
    countEv (Ev.closed (derivedDSN envC3 "app")) (queryTablesCount envC3 "app").trace = 1 := by
  have h := (c3_connection_closed_once envC3 "app").2 rfl
  exact ⟨h.1, h.2.1⟩

/-- C6 counterexample: in `envC6` the object-count row fails to scan; the
claim says the stage nevertheless proceeds to the storage-bloat diagnostics
query, but the trace shows the bloat query is never attempted, no bloat
metric is emitted (although the bloat oracle holds a row), and the scan
failure is returned as the stage's error. -/
theorem c6_counterexample :
    (queryTablesCount envC6 "app").err = some "count scan failed" ∧
    Ev.bloatQ (derivedDSN envC6 "app") ∉ (queryTablesCount envC6 "app").trace ∧
    (queryTablesCount envC6 "app").metrics = [] :=
  ⟨rfl, by decide, rfl⟩

/-- C6 (amended): when the object-count row fails to scan, the failure is
recorded as the target's error — the per-database loop appends it to the
accumulated failures — but the stage returns immediately: the storage-bloat
diagnostics query is not executed, no metric is emitted, and the connection
is still closed. -/
theorem c6_count_scan_aborts (env : Env) (dbname : String)
    (rows : List (Except String ℚ)) (e : String)
    (hopen : env.openResult (derivedDSN env dbname) = .ok ())
    (hq : env.tableCountQuery (derivedDSN env dbname) = .ok rows)
    (hscan : scanCounts 0 rows = .error e) :
    queryTablesCount env dbname =
      ⟨[], [Ev.openAttempt (derivedDSN env dbname), Ev.opened (derivedDSN env dbname),
            Ev.tableCountQ (derivedDSN env dbname), Ev.closed (derivedDSN env dbname)],
        0, some e⟩ ∧
    (perDbStage env [dbname]).errs = [e] ∧
    Ev.bloatQ (derivedDSN env dbname) ∉ (queryTablesCount env dbname).trace := by
  have h1 : queryTablesCount env dbname =
      ⟨[], [Ev.openAttempt (derivedDSN env dbname), Ev.opened (derivedDSN env dbname),
            Ev.tableCountQ (derivedDSN env dbname), Ev.closed (derivedDSN env dbname)],
        0, some e⟩ := by
    simp [queryTablesCount, hopen, hq, hscan]
  refine ⟨h1, ?_, ?_⟩
  · simp [perDbStage, h1]
  · simp [h1]

/-- C6 witness: the amended theorem applied to the concrete cycle whose
object-count row fails to scan. -/
theorem c6_count_scan_aborts_witness :
    queryTablesCount envC6 "app" =
      ⟨[], [Ev.openAttempt (derivedDSN envC6 "app"), Ev.opened (derivedDSN envC6 "app"),
            Ev.tableCountQ (derivedDSN envC6 "app"), Ev.closed (derivedDSN envC6 "app")],
        0, some "count scan failed"⟩ ∧
    (perDbStage envC6 ["app"]).errs = ["count scan failed"] :=
  ⟨(c6_count_scan_aborts envC6 "app" [.error "count scan failed"] "count scan failed"
      rfl rfl rfl).1,
   (c6_count_scan_aborts envC6 "app" [.error "count scan failed"] "count scan failed"
      rfl rfl rfl).2.1⟩

/-- C7 counterexample: in `envC7` the object-count query produced the value 10
(step 3 succeeded), but the bloat query fails, so — contrary to the claim —
no object-count measurement is emitted for the target: the cycle emits only
the size measurement and records the bloat failure. -/
theorem c7_counterexample :
    scanCounts 0 [Except.ok (10 : ℚ)] = .ok 10 ∧
    (Scrape envC7).metrics = [Metric.dbSize "app" 5] ∧
    Metric.tableCount "app" 10 ∉ (Scrape envC7).metrics ∧
    (Scrape envC7).errs = ["bloat query failed"] :=
  ⟨rfl, rfl, by decide, rfl⟩

/-- C7 (amended): the object-count measurement for a target is emitted after
that target's bloat-diagnostic measurements, but only when the whole
per-database stage returned no error; when the stage returns an error — in
particular a storage-bloat query failure — the object-count measurement is
suppressed even though the count had been scanned. -/
theorem c7_count_emitted_after_bloat (env : Env) (n : String) :
    ((queryTablesCount env n).err = none →
      (perDbStage env [n]).metrics =
        (queryTablesCount env n).metrics ++
          [Metric.tableCount n (queryTablesCount env n).count]) ∧
    (∀ e, (queryTablesCount env n).err = some e →
      ∀ c, Metric.tableCount n c ∉ (perDbStage env [n]).metrics) := by
  constructor
  · intro h
    simp [perDbStage, h]
  · intro e h c hmem
    simp [perDbStage, h] at hmem
    exact queryTablesCount_no_count_metric env n n c hmem

/-- C7 witness: the amended theorem applied to a concrete all-successful
target: the bloat measurement is emitted first, the object-count measurement
directly after it. -/
theorem c7_count_emitted_after_bloat_witness :
    (perDbStage envC7w ["app"]).metrics =
      (queryTablesCount envC7w "app").metrics ++
        [Metric.tableCount "app" (queryTablesCount envC7w "app").count] :=
  (c7_count_emitted_after_bloat envC7w "app").1 rfl

/-- C8: in every cycle that reaches the cluster-aggregate stage (the primary
query succeeded) both ratio queries are attempted; a query-execution failure
in one is recorded in the accumulated failures yet the other ratio's
measurement is still emitted when it succeeds; and each ratio helper consumes
at most the first row of its result set. -/
theorem c8_ratio_stages_independent (env : Env)
    (rows : List (Except String (String × ℚ))) (h : env.primaryQuery = .ok rows) :
    Ev.hitCacheQ ∈ (Scrape env).trace ∧ Ev.txCommitQ ∈ (Scrape env).trace ∧
    (∀ e v rest, env.hitCacheQuery = .error e →
      env.txCommitQuery = .ok (.ok v :: rest) →
      e ∈ (Scrape env).errs ∧ Metric.txCommit v ∈ (Scrape env).metrics) ∧
    (∀ e v rest, env.txCommitQuery = .error e →
      env.hitCacheQuery = .ok (.ok v :: rest) →
      e ∈ (Scrape env).errs ∧ Metric.hitCache v ∈ (Scrape env).metrics) ∧
    (∀ r rest, queryHitCacheRate (.ok (r :: rest)) = queryHitCacheRate (.ok [r])) ∧
    (∀ r rest, queryTxCommitRate (.ok (r :: rest)) = queryTxCommitRate (.ok [r])) := by
  refine ⟨?_, ?_, ?_, ?_, ?_, ?_⟩
  · simp [Scrape, h, queryHitCacheRate_trace]
  · simp [Scrape, h, queryTxCommitRate_trace]
  · intro e v rest he hv
    constructor <;> simp [Scrape, h, he, hv, queryHitCacheRate, queryTxCommitRate]
  · intro e v rest he hv
    constructor <;> simp [Scrape, h, he, hv, queryHitCacheRate, queryTxCommitRate]
  · intro r rest; cases r <;> rfl
  · intro r rest; cases r <;> rfl

/-- C8 witness: the theorem applied to the concrete cycle whose cache-hit
query fails while the commit-rate query succeeds: both queries attempted, the
failure recorded, the commit-rate measurement emitted. -/
theorem c8_ratio_stages_independent_witness :
    Ev.hitCacheQ ∈ (Scrape envC8).trace ∧ Ev.txCommitQ ∈ (Scrape envC8).trace ∧
    "hit query failed" ∈ (Scrape envC8).errs ∧
    Metric.txCommit 99 ∈ (Scrape envC8).metrics := by
  have h := c8_ratio_stages_independent envC8 [] rfl
  have h3 := h.2.2.1 "hit query failed" 99 [] rfl rfl
  exact ⟨h.1, h.2.1, h3.1, h3.2⟩

/-- C5: the primary row loop emits exactly one size measurement per
successfully scanned row — carrying that row's database name and size — and
records exactly those names for the per-database stage, in result-set order;
a row that fails to scan contributes only its error and the loop continues.
The emitted size measurements open `Scrape`'s metric stream, the scan errors
open its failure list, and the per-database stage then runs on exactly the
recorded names. -/
theorem c5_size_rows (env : Env) (rows : List (Except String (String × ℚ)))
    (h : env.primaryQuery = .ok rows) :
    (processRows rows).metrics = rows.filterMap (fun r => match r with
      | .ok p => some (Metric.dbSize p.1 p.2)
      | .error _ => none) ∧
    (processRows rows).names = rows.filterMap (fun r => match r with
      | .ok p => some p.1
      | .error _ => none) ∧
    (processRows rows).errs = rows.filterMap (fun r => match r with
      | .ok _ => none
      | .error e => some e) ∧
    (∃ rest, (Scrape env).metrics = (processRows rows).metrics ++ rest) ∧
    (∃ more, (Scrape env).errs = (processRows rows).errs ++ more) ∧
    (∃ tail, (Scrape env).trace =
      Ev.primaryQ :: ((perDbStage env (processRows rows).names).trace ++ tail)) := by
  refine ⟨processRows_metrics rows, processRows_names rows, processRows_errs rows,
    ⟨(perDbStage env (processRows rows).names).metrics ++
      (queryHitCacheRate env.hitCacheQuery).metrics ++
      (queryTxCommitRate env.txCommitQuery).metrics, ?_⟩,
    ⟨(perDbStage env (processRows rows).names).errs ++
      (queryHitCacheRate env.hitCacheQuery).err.toList ++
      (queryTxCommitRate env.txCommitQuery).err.toList, ?_⟩,
    ⟨(queryHitCacheRate env.hitCacheQuery).trace ++
      (queryTxCommitRate env.txCommitQuery).trace, ?_⟩⟩ <;> simp [Scrape, h]

/-- C5 witness: the theorem applied to a concrete result set of two good rows
around one row that fails to scan: both size measurements are emitted with
their names and values, both names are recorded, and the bad row contributes
exactly its error. -/
theorem c5_size_rows_witness :
    (processRows rowsC5).metrics = [Metric.dbSize "app" 100, Metric.dbSize "sales" 42] ∧
    (processRows rowsC5).names = ["app", "sales"] ∧
    (processRows rowsC5).errs = ["bad row"] := by
  have h := c5_size_rows envC5 rowsC5 rfl
  refine ⟨?_, ?_, ?_⟩
  · rw [h.1]; decide
  · rw [h.2.1]; decide
  · rw [h.2.2.1]; decide

/-- C1: with the primary query succeeding and every row scanning, if exactly
one discovered target fails in the per-database stage while every other
target succeeds and both ratio queries execute, then every other target is
still fully processed (its object-count measurement is emitted) and the cycle
accumulates exactly that one failure, which `combineErr` returns directly —
the aggregated error mentions exactly one failure. -/
theorem c1_single_target_failure (env : Env)
    (rows : List (Except String (String × ℚ)))
    (pre post : List String) (bad : String) (e : String)
    (hq : env.primaryQuery = .ok rows)
    (hrows : ∀ r ∈ rows, ∃ p, r = Except.ok p)
    (hnames : (processRows rows).names = pre ++ bad :: post)
    (hbad : (queryTablesCount env bad).err = some e)
    (hgood : ∀ n ∈ pre ++ post, (queryTablesCount env n).err = none)
    (hhit : ∃ l, env.hitCacheQuery = Except.ok l)
    (htx : ∃ l, env.txCommitQuery = Except.ok l) :
    (Scrape env).errs = [e] ∧ (Scrape env).result = some e ∧
    ∀ n ∈ pre ++ post,
      Metric.tableCount n (queryTablesCount env n).count ∈ (Scrape env).metrics := by
  obtain ⟨lh, hlh⟩ := hhit
  obtain ⟨lt, hlt⟩ := htx
  have hperr : (processRows rows).errs = [] := by
    rw [processRows_errs]
    refine List.filterMap_eq_nil_iff.2 ?_
    intro r hr
    obtain ⟨p, rfl⟩ := hrows r hr
    rfl
  have hderr : (perDbStage env (processRows rows).names).errs = [e] := by
    rw [perDbStage_errs, hnames, List.filterMap_append, List.filterMap_cons]
    have hpre : pre.filterMap (fun n => (queryTablesCount env n).err) = [] :=
      List.filterMap_eq_nil_iff.2 fun n hn => hgood n (List.mem_append_left _ hn)
    have hpost : post.filterMap (fun n => (queryTablesCount env n).err) = [] :=
      List.filterMap_eq_nil_iff.2 fun n hn => hgood n (List.mem_append_right _ hn)
    simp [hpre, hpost, hbad]
  have herrs : (Scrape env).errs = [e] := by
    simp [Scrape, hq, hperr, hderr, hlh, hlt,
      queryHitCacheRate_ok_err, queryTxCommitRate_ok_err]
  refine ⟨herrs, ?_, ?_⟩
  · have : (Scrape env).result = combineErr (Scrape env).errs := by
      simp [Scrape, hq]
    rw [this, herrs]
    rfl
  · intro n hn
    have hmem : n ∈ (processRows rows).names := by
      rw [hnames]
      rcases List.mem_append.1 hn with hl | hr
      · exact List.mem_append_left _ hl
      · exact List.mem_append_right _ (List.mem_cons_of_mem _ hr)
    have hd := perDbStage_good_mem env (processRows rows).names n hmem (hgood n hn)
    simp [Scrape, hq]
    exact Or.inr (Or.inl hd)

/-- C1 witness: the theorem applied to the concrete cycle discovering "a" and
"b" in which only the connection for "a" fails to open: the cycle still emits
"b"'s object-count measurement and returns exactly the one failure. -/
theorem c1_single_target_failure_witness :
    (Scrape envC1).errs = ["open failed"] ∧
    (Scrape envC1).result = some "open failed" ∧
    Metric.tableCount "b" 3 ∈ (Scrape envC1).metrics := by
  have h := c1_single_target_failure envC1 [.ok ("a", 1), .ok ("b", 2)] [] ["b"] "a"
    "open failed" rfl
    (by intro r hr
        rcases List.mem_cons.1 hr with rfl | hr2
        · exact ⟨("a", 1), rfl⟩
        · rcases List.mem_cons.1 hr2 with rfl | hr3
          · exact ⟨("b", 2), rfl⟩
          · cases hr3)
    rfl rfl
    (by intro n hn
        have : n = "b" := by simpa using hn
        subst this
        rfl)
    ⟨[.ok 1], rfl⟩ ⟨[.ok 1], rfl⟩
  have hc : (queryTablesCount envC1 "b").count = 3 := rfl
  refine ⟨h.1, h.2.1, ?_⟩
  have := h.2.2 "b" (by simp)
  rwa [hc] at this

end GreenplumExporter
